import Mathlib

/-!
Verification of the books-api search service.

Shallow embedding of the two source files of the repository:

* db.py — connection-pool lifecycle (DSN construction from environment
  variables, pool initialization) and the pattern builder plus the two
  database search functions;
* main.py — the FastAPI request handlers, with their own copy of the
  pattern builder, their query/parameter selection, and the mapping of
  query-execution errors to an HTTP 500 response.

Python strings are embedded as lists of characters (Str); the psycopg
pool and cursor effects are embedded as an explicit environment (DbEnv)
and pool state (PoolState), with the guaranteed-release semantics of the
Python `async with pool.connection()` statement embedded as the
withConnection combinator.
-/

/-- Python str, embedded as a list of characters. -/
abbrev Str := List Char

/-- Convenience conversion from a Lean string literal to Str. -/
def pyStr (s : String) : Str := s.toList

/-- Characters for which Python's str.isspace() is true (the set stripped
by str.strip() with no arguments): ASCII whitespace, the C1 separators,
NEL, NBSP and the Unicode space separators. -/
def isPySpace (c : Char) : Bool :=
  [0x09, 0x0a, 0x0b, 0x0c, 0x0d, 0x1c, 0x1d, 0x1e, 0x1f, 0x20, 0x85, 0xa0, 0x1680,
   0x2000, 0x2001, 0x2002, 0x2003, 0x2004, 0x2005, 0x2006, 0x2007, 0x2008, 0x2009,
   0x200a, 0x2028, 0x2029, 0x202f, 0x205f, 0x3000].contains c.toNat

/-- Python value.strip(): remove leading and trailing whitespace. -/
def pyStrip (s : Str) : Str :=
  ((s.dropWhile isPySpace).reverse.dropWhile isPySpace).reverse

/-- A result row: psycopg dict_row gives a mapping from column name to
value; the service never inspects it, so the value type is opaque text. -/
abbrev Row := List (Str × Str)

/-- The pair passed to cur.execute: the SQL query text (a constant string
in the source, never manipulated) and the bound-parameter tuple. -/
structure DbCall where
  query : String
  params : List Str
  deriving DecidableEq, Repr

/-- Outcome of running a handler body: a normal return value, a raised
fastapi.HTTPException(status_code, detail), or any other exception
propagating uncaught out of the handler. -/
inductive Outcome (α : Type) where
  | ok : α → Outcome α
  | httpError : Nat → String → Outcome α
  | raised : Str → Outcome α
  deriving DecidableEq

/-- Whether the outcome is a raised fastapi.HTTPException. -/
def Outcome.isHttpError {α : Type} : Outcome α → Bool
  | .httpError _ _ => true
  | _ => false

/-- Observable pool accounting: currently available connections plus
cumulative acquire/release counters. -/
structure PoolState where
  available : Nat
  acquires : Nat
  releases : Nat
  deriving DecidableEq, Repr

/-- The ambient database world a request runs against: whether the module
level pool has been initialized, the outcome of entering
pool.connection(), and the behaviour of cur.execute/fetchall on a given
query and parameter tuple. -/
structure DbEnv where
  poolInitialized : Bool
  connectResult : Except Str Unit
  exec : DbCall → Except Str (List Row)

/-- Embedding of the Python `async with pool.connection() as conn:` block
of psycopg_pool: one connection is checked out for the duration of the
body and checked back in when the block is exited on any path (normal
return, HTTPException, or any other exception) — the context-manager
protocol guarantees the release. -/
def withConnection {α : Type} (st : PoolState)
    (body : PoolState → Outcome α × PoolState) : Outcome α × PoolState :=
  let acquired : PoolState :=
    { st with available := st.available - 1, acquires := st.acquires + 1 }
  let r := body acquired
  (r.1, { r.2 with available := r.2.available + 1, releases := r.2.releases + 1 })

/-- The process environment as seen through os.getenv: each variable is
either unset (none) or set to a string, possibly empty. -/
structure EnvVars where
  DB_NAME : Option Str
  DB_USER : Option Str
  DB_PASSWORD : Option Str
  DB_HOST : Option Str
  DB_PORT : Option Str
  deriving DecidableEq, Repr

/-- Python truthiness of an os.getenv result: falsy when the variable is
unset (None) or set to the empty string. -/
def truthy : Option Str → Bool
  | none => false
  | some s => !s.isEmpty

/-- Embedding of the Python idiom `os.getenv(name) or default`: the
default is used when the variable is unset or set to the empty string. -/
def envOr (v : Option Str) (d : Str) : Str :=
  match v with
  | none => d
  | some s => if s.isEmpty then d else s

/-- Uppercase hexadecimal digit, as produced by urllib percent-encoding. -/
def hexDigit (n : Nat) : Char :=
  if n < 10 then Char.ofNat (48 + n) else Char.ofNat (55 + n)

/-- UTF-8 encoding of one character as byte values. -/
def utf8Bytes (c : Char) : List Nat :=
  let n := c.toNat
  if n < 0x80 then [n]
  else if n < 0x800 then [0xC0 + n / 64, 0x80 + n % 64]
  else if n < 0x10000 then [0xE0 + n / 4096, 0x80 + (n / 64) % 64, 0x80 + n % 64]
  else [0xF0 + n / 0x40000, 0x80 + (n / 4096) % 64, 0x80 + (n / 64) % 64, 0x80 + n % 64]

/-- Per-character behaviour of urllib.parse.quote_plus: a space becomes a
plus sign, ASCII alphanumerics and underscore, dot, hyphen, tilde pass
through, everything else is percent-encoded byte by byte. -/
def quote_plus_char (c : Char) : Str :=
  if c = ' ' then ['+']
  else if c.isAlphanum || c = '_' || c = '.' || c = '-' || c = '~' then [c]
  else (utf8Bytes c).flatMap (fun b => ['%', hexDigit (b / 16), hexDigit (b % 16)])

/-- Embedding of urllib.parse.quote_plus, used by db.py to URL-encode the
user and password before splicing them into the DSN. -/
def quote_plus (s : Str) : Str := s.flatMap quote_plus_char

/-- The DSN f-string of db.py:
postgresql://user_enc:password_enc@db_host:db_port/db_name. -/
def mkDsn (user_enc password_enc db_host db_port db_name : Str) : Str :=
  pyStr "postgresql://" ++ user_enc ++ pyStr ":" ++ password_enc ++ pyStr "@" ++
    db_host ++ pyStr ":" ++ db_port ++ pyStr "/" ++ db_name

/-- Whether an Except value is an error (a raised Python exception). -/
def exceptErr {α : Type} : Except Str α → Bool
  | .error _ => true
  | .ok _ => false

/-- The state the pool is constructed with in db.init_pool. -/
structure PoolConfig where
  conninfo : Str
  min_size : Nat
  max_size : Nat
  deriving DecidableEq, Repr

namespace db

/-- db.py _make_like_pattern: strip surrounding whitespace; keep an empty
result as-is; otherwise wrap in percent wildcards for substring match. -/
def _make_like_pattern (value : Str) : Str :=
  let value := pyStrip value
  if value = [] then value
  else '%' :: (value ++ ['%'])

/-- db.py _build_dsn_from_env: read the five variables, default host and
port, raise RuntimeError unless DB_NAME, DB_USER and DB_PASSWORD are all
truthy, then build the DSN with the user and password URL-encoded. -/
def _build_dsn_from_env (env : EnvVars) : Except Str Str :=
  let db_name := env.DB_NAME
  let db_user := env.DB_USER
  let db_password := env.DB_PASSWORD
  let db_host := envOr env.DB_HOST (pyStr "localhost")
  let db_port := envOr env.DB_PORT (pyStr "5432")
  if !(truthy db_name && truthy db_user && truthy db_password) then
    .error (pyStr "Database configuration missing. Required environment variables: DB_NAME, DB_USER, DB_PASSWORD.")
  else
    .ok (mkDsn (quote_plus (db_user.getD [])) (quote_plus (db_password.getD []))
          db_host db_port (db_name.getD []))

/-- db.py init_pool: a no-op when the global pool is already set;
otherwise build the DSN from the environment (propagating its
RuntimeError) and construct the pool with min_size 1 and max_size 10. -/
def init_pool (env : EnvVars) (pool : Option PoolConfig) :
    Except Str (Option PoolConfig) :=
  match pool with
  | some p => .ok (some p)
  | none =>
    match _build_dsn_from_env env with
    | .error e => .error e
    | .ok dsn => .ok (some { conninfo := dsn, min_size := 1, max_size := 10 })

/-- Query text and parameter tuple chosen by db.py search_author: the
one-argument call when publish_by_date is None, the two-argument call
otherwise, with the pattern first and the raw date second. -/
def search_author_call (author_name : Str) (publish_by_date : Option Str) : DbCall :=
  let author_pattern := _make_like_pattern author_name
  match publish_by_date with
  | none =>
    { query := "SELECT * FROM search_author(%s);", params := [author_pattern] }
  | some d =>
    { query := "SELECT * FROM search_author(%s, %s);", params := [author_pattern, d] }

/-- Query text and parameter tuple chosen by db.py search_books. -/
def search_books_call (book_name : Str) (publish_by_date : Option Str) : DbCall :=
  let book_pattern := _make_like_pattern book_name
  match publish_by_date with
  | none =>
    { query := "SELECT * FROM search_books(%s);", params := [book_pattern] }
  | some d =>
    { query := "SELECT * FROM search_books(%s, %s);", params := [book_pattern, d] }

end db

namespace main

/-- main.py _make_like_pattern (textually duplicated from db.py). -/
def _make_like_pattern (value : Str) : Str :=
  let value := pyStrip value
  if value = [] then value
  else '%' :: (value ++ ['%'])

/-- Query text and parameter tuple chosen by main.py _search_author
(lines selecting the one- or two-argument form of search_author). -/
def _search_author_call (author_name : Str) (publish_by_date : Option Str) : DbCall :=
  let author_pattern := _make_like_pattern author_name
  match publish_by_date with
  | none =>
    { query := "SELECT * FROM search_author(%s);", params := [author_pattern] }
  | some d =>
    { query := "SELECT * FROM search_author(%s, %s);", params := [author_pattern, d] }

/-- Query text and parameter tuple chosen by main.py _search_books. -/
def _search_books_call (book_name : Str) (publish_by_date : Option Str) : DbCall :=
  let book_pattern := _make_like_pattern book_name
  match publish_by_date with
  | none =>
    { query := "SELECT * FROM search_books(%s);", params := [book_pattern] }
  | some d =>
    { query := "SELECT * FROM search_books(%s, %s);", params := [book_pattern, d] }

/-- Result of running a handler: its outcome, the resulting pool state,
and the call handed to cur.execute when execution was reached. -/
structure RunResult where
  outcome : Outcome (List Row)
  pool : PoolState
  executed : Option DbCall

/-- main.py _search_author. Control flow of the source: db.get_connection
raises RuntimeError when the module pool is None; entering
pool.connection() may itself raise (propagating uncaught, since the
handler's try block only wraps execute/fetchall); inside the connection
scope the query and parameters are chosen by presence of
publish_by_date, and any exception from cur.execute/fetchall is replaced
by HTTPException(500, "Error querying database using search_author"). -/
def _search_author (env : DbEnv) (st : PoolState) (author_name : Str)
    (publish_by_date : Option Str) : RunResult :=
  if env.poolInitialized = false then
    { outcome := .raised (pyStr "Database connection pool is not initialized"),
      pool := st, executed := none }
  else
    match env.connectResult with
    | .error e => { outcome := .raised e, pool := st, executed := none }
    | .ok _ =>
      let call := _search_author_call author_name publish_by_date
      let r := withConnection st (fun st1 =>
        match env.exec call with
        | .ok rows => (.ok rows, st1)
        | .error _ =>
          (.httpError 500 "Error querying database using search_author", st1))
      { outcome := r.1, pool := r.2, executed := some call }

/-- main.py _search_books, identical in shape to _search_author with the
books query and detail message. -/
def _search_books (env : DbEnv) (st : PoolState) (book_name : Str)
    (publish_by_date : Option Str) : RunResult :=
  if env.poolInitialized = false then
    { outcome := .raised (pyStr "Database connection pool is not initialized"),
      pool := st, executed := none }
  else
    match env.connectResult with
    | .error e => { outcome := .raised e, pool := st, executed := none }
    | .ok _ =>
      let call := _search_books_call book_name publish_by_date
      let r := withConnection st (fun st1 =>
        match env.exec call with
        | .ok rows => (.ok rows, st1)
        | .error _ =>
          (.httpError 500 "Error querying database using search_books", st1))
      { outcome := r.1, pool := r.2, executed := some call }

end main

/-! Shared fixtures and helper lemmas. -/

/-- An environment in which connecting and executing both succeed. -/
def envOk : DbEnv :=
  { poolInitialized := true, connectResult := .ok (), exec := fun _ => .ok [] }

/-- An environment in which entering pool.connection() raises. -/
def envConnFail : DbEnv :=
  { poolInitialized := true,
    connectResult := .error (pyStr "connection refused"),
    exec := fun _ => .ok [] }

/-- An environment in which cur.execute raises a database error. -/
def envExecFail : DbEnv :=
  { poolInitialized := true, connectResult := .ok (),
    exec := fun _ => .error (pyStr "FATAL: database books does not exist") }

/-- A baseline pool state (the source pool has max_size 10). -/
def st0 : PoolState := { available := 10, acquires := 0, releases := 0 }

/-- A good process environment: all required variables set and non-empty,
host and port unset. -/
def envGood : EnvVars :=
  { DB_NAME := some (pyStr "books"), DB_USER := some (pyStr "admin"),
    DB_PASSWORD := some (pyStr "secret"), DB_HOST := none, DB_PORT := none }

/-- A process environment with DB_NAME set to the empty string: every
variable is present, yet the required-variable check fails. -/
def envEmptyName : EnvVars :=
  { DB_NAME := some [], DB_USER := some (pyStr "admin"),
    DB_PASSWORD := some (pyStr "secret"), DB_HOST := none, DB_PORT := none }

/-- Stripping a string whose characters are all whitespace gives the
empty string. -/
theorem pyStrip_eq_nil_of_all (t : Str) (h : ∀ c ∈ t, isPySpace c = true) :
    pyStrip t = [] := by
  unfold pyStrip
  rw [List.dropWhile_eq_nil_iff.mpr h]
  simp

/-- An os.getenv result is falsy exactly when the variable is unset or
set to the empty string. -/
theorem truthy_eq_false_iff (v : Option Str) :
    truthy v = false ↔ v = none ∨ v = some [] := by
  cases v with
  | none => simp [truthy]
  | some s => simp [truthy, List.isEmpty_iff]

/-! Claim theorems. -/

/-- C2: for every search term whose whitespace-trimmed form is non-empty,
the derived search pattern (in both copies of the builder) equals the
trimmed term wrapped with the percent wildcard marker on both sides. -/
theorem C2_pattern_wraps_trimmed (t : Str) (h : pyStrip t ≠ []) :
    main._make_like_pattern t = ['%'] ++ pyStrip t ++ ['%'] ∧
    db._make_like_pattern t = ['%'] ++ pyStrip t ++ ['%'] := by
  constructor <;> simp [main._make_like_pattern, db._make_like_pattern, h]

/-- Witness for C2 at the term " Tolkien " (trimmed form "Tolkien"). -/
theorem C2_pattern_wraps_trimmed_witness :
    pyStrip (pyStr " Tolkien ") ≠ [] ∧
    (main._make_like_pattern (pyStr " Tolkien ") =
       ['%'] ++ pyStrip (pyStr " Tolkien ") ++ ['%'] ∧
     db._make_like_pattern (pyStr " Tolkien ") =
       ['%'] ++ pyStrip (pyStr " Tolkien ") ++ ['%']) :=
  ⟨by decide, C2_pattern_wraps_trimmed (pyStr " Tolkien ") (by decide)⟩

/-- C3: for every search term that is empty or consists only of
whitespace, the derived search pattern (in both copies of the builder) is
the empty string, with no wildcard wrapping applied. -/
theorem C3_empty_term_passes_through (t : Str) (h : ∀ c ∈ t, isPySpace c = true) :
    main._make_like_pattern t = [] ∧ db._make_like_pattern t = [] := by
  have hs := pyStrip_eq_nil_of_all t h
  constructor <;> simp [main._make_like_pattern, db._make_like_pattern, hs]

/-- Witness for C3 at a whitespace-only term. -/
theorem C3_empty_term_passes_through_witness :
    (∀ c ∈ pyStr " \t ", isPySpace c = true) ∧
    (main._make_like_pattern (pyStr " \t ") = [] ∧
     db._make_like_pattern (pyStr " \t ") = []) :=
  ⟨by decide, C3_empty_term_passes_through (pyStr " \t ") (by decide)⟩

/-- C9: the pattern builder duplicated in db.py and main.py computes the
same function: the two definitions agree on every input. -/
theorem C9_duplicated_builders_agree (s : Str) :
    db._make_like_pattern s = main._make_like_pattern s := rfl

/-- C10: when the trimmed term is non-empty, it is embedded verbatim
(unescaped) inside the derived pattern: the trimmed term is an infix of
the pattern, the percent count grows by exactly the two added wildcard
markers, and the underscore count is unchanged — so LIKE metacharacters
supplied by the user pass through to the database function. -/
theorem C10_metacharacters_unescaped (t : Str) (h : pyStrip t ≠ []) :
    List.IsInfix (pyStrip t) (db._make_like_pattern t) ∧
    (db._make_like_pattern t).count '%' = (pyStrip t).count '%' + 2 ∧
    (db._make_like_pattern t).count '_' = (pyStrip t).count '_' := by
  have hp : db._make_like_pattern t = '%' :: (pyStrip t ++ ['%']) := by
    simp [db._make_like_pattern, h]
  refine ⟨⟨['%'], ['%'], by simp [hp]⟩, ?_, ?_⟩ <;>
    simp [hp, List.count_cons, List.count_append]

/-- Witness for C10 at the term "100%", whose pattern is "%100%%". -/
theorem C10_metacharacters_unescaped_witness :
    pyStrip (pyStr "100%") ≠ [] ∧
    (List.IsInfix (pyStrip (pyStr "100%")) (db._make_like_pattern (pyStr "100%")) ∧
     (db._make_like_pattern (pyStr "100%")).count '%' = (pyStrip (pyStr "100%")).count '%' + 2 ∧
     (db._make_like_pattern (pyStr "100%")).count '_' = (pyStrip (pyStr "100%")).count '_') ∧
    db._make_like_pattern (pyStr "100%") = pyStr "%100%%" :=
  ⟨by decide, C10_metacharacters_unescaped (pyStr "100%") (by decide), by decide⟩

/-- C1: the SQL query text produced by every search path (both handlers
in main.py and both functions in db.py) is one of a fixed set of constant
strings; two runs whose inputs agree on date-filter presence produce
identical query text, whatever the user-supplied term and date values. -/
theorem C1_query_text_independent_of_inputs (a1 a2 x1 x2 : Str) (d : Option Str) :
    ((main._search_author_call a1 none).query = (main._search_author_call a2 none).query ∧
     (main._search_author_call a1 (some x1)).query = (main._search_author_call a2 (some x2)).query ∧
     (main._search_books_call a1 none).query = (main._search_books_call a2 none).query ∧
     (main._search_books_call a1 (some x1)).query = (main._search_books_call a2 (some x2)).query ∧
     (db.search_author_call a1 none).query = (db.search_author_call a2 none).query ∧
     (db.search_author_call a1 (some x1)).query = (db.search_author_call a2 (some x2)).query ∧
     (db.search_books_call a1 none).query = (db.search_books_call a2 none).query ∧
     (db.search_books_call a1 (some x1)).query = (db.search_books_call a2 (some x2)).query) ∧
    ((main._search_author_call a1 d).query = "SELECT * FROM search_author(%s);" ∨
     (main._search_author_call a1 d).query = "SELECT * FROM search_author(%s, %s);") ∧
    ((main._search_books_call a1 d).query = "SELECT * FROM search_books(%s);" ∨
     (main._search_books_call a1 d).query = "SELECT * FROM search_books(%s, %s);") := by
  refine ⟨⟨rfl, rfl, rfl, rfl, rfl, rfl, rfl, rfl⟩, ?_, ?_⟩ <;>
    cases d with
    | none => exact Or.inl rfl
    | some v => exact Or.inr rfl

/-- C7: whenever a date filter is supplied, the second bound parameter
handed to the database function is the raw supplied string, untrimmed and
unwrapped, in both handlers and both db.py functions. -/
theorem C7_date_filter_passed_raw (a x : Str) :
    (main._search_author_call a (some x)).params = [main._make_like_pattern a, x] ∧
    (main._search_books_call a (some x)).params = [main._make_like_pattern a, x] ∧
    (db.search_author_call a (some x)).params = [db._make_like_pattern a, x] ∧
    (db.search_books_call a (some x)).params = [db._make_like_pattern a, x] :=
  ⟨rfl, rfl, rfl, rfl⟩

/-- C4 counterexample: a database connection failure (pool.connection()
raising on entry) is not mapped to an HTTP 500 response by the handler —
the try block only wraps execute/fetchall, so the raw exception
propagates uncaught out of the handler, carrying the database error
text. This refutes the claim that every database error, connection
failures included, is mapped by the handler to a uniform 500 response. -/
theorem C4_counterexample :
    (main._search_author envConnFail st0 (pyStr "Tolkien") none).outcome =
      .raised (pyStr "connection refused") ∧
    Outcome.isHttpError
      (main._search_author envConnFail st0 (pyStr "Tolkien") none).outcome = false :=
  ⟨rfl, rfl⟩

/-- C4 (amended): every error raised by query execution or row fetching,
in either handler, is mapped to HTTPException 500 with a constant generic
detail string that does not depend on the database error text; connection
acquisition failures, by contrast, propagate out of the handler uncaught. -/
theorem C4_exec_errors_become_constant_500 (env : DbEnv) (st : PoolState)
    (a : Str) (d : Option Str) (e1 e2 : Str)
    (h1 : env.poolInitialized = true) (h2 : env.connectResult = .ok ())
    (h3 : env.exec (main._search_author_call a d) = .error e1)
    (h4 : env.exec (main._search_books_call a d) = .error e2) :
    (main._search_author env st a d).outcome =
      .httpError 500 "Error querying database using search_author" ∧
    (main._search_books env st a d).outcome =
      .httpError 500 "Error querying database using search_books" := by
  constructor <;>
    simp [main._search_author, main._search_books, h1, h2, h3, h4, withConnection]

/-- Witness for the amended C4: a failing execute yields exactly the
constant 500 responses. -/
theorem C4_exec_errors_become_constant_500_witness :
    envExecFail.poolInitialized = true ∧ envExecFail.connectResult = .ok () ∧
    envExecFail.exec (main._search_author_call (pyStr "Tolkien") none) =
      .error (pyStr "FATAL: database books does not exist") ∧
    envExecFail.exec (main._search_books_call (pyStr "Tolkien") none) =
      .error (pyStr "FATAL: database books does not exist") ∧
    ((main._search_author envExecFail st0 (pyStr "Tolkien") none).outcome =
       .httpError 500 "Error querying database using search_author" ∧
     (main._search_books envExecFail st0 (pyStr "Tolkien") none).outcome =
       .httpError 500 "Error querying database using search_books") :=
  ⟨rfl, rfl, rfl, rfl,
   C4_exec_errors_become_constant_500 envExecFail st0 (pyStr "Tolkien") none
     (pyStr "FATAL: database books does not exist")
     (pyStr "FATAL: database books does not exist") rfl rfl rfl rfl⟩

/-- C5: once a connection is acquired, it is released exactly once on
every exit path of either handler — whatever the execute step does, the
pool's available count returns to its pre-request baseline and the
release counter increases by exactly one. -/
theorem C5_connection_released_exactly_once (env : DbEnv) (st : PoolState)
    (a : Str) (d : Option Str)
    (h0 : 0 < st.available)
    (h1 : env.poolInitialized = true) (h2 : env.connectResult = .ok ()) :
    ((main._search_author env st a d).pool.available = st.available ∧
     (main._search_author env st a d).pool.acquires = st.acquires + 1 ∧
     (main._search_author env st a d).pool.releases = st.releases + 1) ∧
    ((main._search_books env st a d).pool.available = st.available ∧
     (main._search_books env st a d).pool.acquires = st.acquires + 1 ∧
     (main._search_books env st a d).pool.releases = st.releases + 1) := by
  cases hA : env.exec (main._search_author_call a d) <;>
    cases hB : env.exec (main._search_books_call a d) <;>
      simp [main._search_author, main._search_books, h1, h2, hA, hB, withConnection] <;>
        omega

/-- Witness for C5: on a concrete successful request the pool returns to
its baseline with one acquire and one release. -/
theorem C5_connection_released_exactly_once_witness :
    0 < st0.available ∧ envOk.poolInitialized = true ∧ envOk.connectResult = .ok () ∧
    (((main._search_author envOk st0 (pyStr "Tolkien") none).pool.available = st0.available ∧
      (main._search_author envOk st0 (pyStr "Tolkien") none).pool.acquires = st0.acquires + 1 ∧
      (main._search_author envOk st0 (pyStr "Tolkien") none).pool.releases = st0.releases + 1) ∧
     ((main._search_books envOk st0 (pyStr "Tolkien") none).pool.available = st0.available ∧
      (main._search_books envOk st0 (pyStr "Tolkien") none).pool.acquires = st0.acquires + 1 ∧
      (main._search_books envOk st0 (pyStr "Tolkien") none).pool.releases = st0.releases + 1)) :=
  ⟨by decide, rfl, rfl,
   C5_connection_released_exactly_once envOk st0 (pyStr "Tolkien") none (by decide) rfl rfl⟩

/-- C6: when a request reaches query execution, the call handed to the
database is the one-argument form of the endpoint's function when the
date filter is absent and the two-argument form when it is present — the
author handler only ever invokes search_author and the books handler only
ever invokes search_books. -/
theorem C6_binary_function_selection (env : DbEnv) (st : PoolState) (a x : Str)
    (h1 : env.poolInitialized = true) (h2 : env.connectResult = .ok ()) :
    (main._search_author env st a none).executed =
      some { query := "SELECT * FROM search_author(%s);",
             params := [main._make_like_pattern a] } ∧
    (main._search_author env st a (some x)).executed =
      some { query := "SELECT * FROM search_author(%s, %s);",
             params := [main._make_like_pattern a, x] } ∧
    (main._search_books env st a none).executed =
      some { query := "SELECT * FROM search_books(%s);",
             params := [main._make_like_pattern a] } ∧
    (main._search_books env st a (some x)).executed =
      some { query := "SELECT * FROM search_books(%s, %s);",
             params := [main._make_like_pattern a, x] } := by
  refine ⟨?_, ?_, ?_, ?_⟩ <;>
    simp [main._search_author, main._search_books, h1, h2,
      main._search_author_call, main._search_books_call, withConnection]

/-- Witness for C6 on concrete requests with and without a date filter. -/
theorem C6_binary_function_selection_witness :
    envOk.poolInitialized = true ∧ envOk.connectResult = .ok () ∧
    ((main._search_author envOk st0 (pyStr "Tolkien") none).executed =
       some { query := "SELECT * FROM search_author(%s);",
              params := [main._make_like_pattern (pyStr "Tolkien")] } ∧
     (main._search_author envOk st0 (pyStr "Tolkien") (some (pyStr "1954-07-29"))).executed =
       some { query := "SELECT * FROM search_author(%s, %s);",
              params := [main._make_like_pattern (pyStr "Tolkien"), pyStr "1954-07-29"] } ∧
     (main._search_books envOk st0 (pyStr "Tolkien") none).executed =
       some { query := "SELECT * FROM search_books(%s);",
              params := [main._make_like_pattern (pyStr "Tolkien")] } ∧
     (main._search_books envOk st0 (pyStr "Tolkien") (some (pyStr "1954-07-29"))).executed =
       some { query := "SELECT * FROM search_books(%s, %s);",
              params := [main._make_like_pattern (pyStr "Tolkien"), pyStr "1954-07-29"] }) :=
  ⟨rfl, rfl,
   C6_binary_function_selection envOk st0 (pyStr "Tolkien") (pyStr "1954-07-29") rfl rfl⟩

/-- C8 counterexample: with DB_NAME set to the empty string, every
required variable is present in the environment, yet pool initialization
fails — refuting the claim that initialization fails only when a required
variable is absent (the source tests Python truthiness, which also
rejects present-but-empty values). -/
theorem C8_counterexample :
    exceptErr (db.init_pool envEmptyName none) = true ∧
    envEmptyName.DB_NAME ≠ none ∧
    envEmptyName.DB_USER ≠ none ∧
    envEmptyName.DB_PASSWORD ≠ none := by
  refine ⟨rfl, ?_, ?_, ?_⟩ <;> decide

/-- C8 (amended): initialization of a fresh (uninitialized) pool fails
with the configuration error exactly when at least one of DB_NAME,
DB_USER, DB_PASSWORD is unset or set to the empty string; when all three
are set and non-empty and DB_HOST and DB_PORT are unset, the pool is
created with a DSN whose host defaults to localhost and whose port
defaults to 5432. -/
theorem C8_config_failure_iff_required_missing (env env2 : EnvVars) (n u p : Str)
    (hn : env2.DB_NAME = some n) (hn2 : n ≠ [])
    (hu : env2.DB_USER = some u) (hu2 : u ≠ [])
    (hp : env2.DB_PASSWORD = some p) (hp2 : p ≠ [])
    (hh : env2.DB_HOST = none) (ho : env2.DB_PORT = none) :
    (exceptErr (db.init_pool env none) = true ↔
      (env.DB_NAME = none ∨ env.DB_NAME = some [] ∨
       env.DB_USER = none ∨ env.DB_USER = some [] ∨
       env.DB_PASSWORD = none ∨ env.DB_PASSWORD = some [])) ∧
    db.init_pool env2 none =
      .ok (some { conninfo := mkDsn (quote_plus u) (quote_plus p)
                    (pyStr "localhost") (pyStr "5432") n,
                  min_size := 1, max_size := 10 }) := by
  constructor
  · have key : exceptErr (db.init_pool env none) = true ↔
        (truthy env.DB_NAME = false ∨ truthy env.DB_USER = false ∨
         truthy env.DB_PASSWORD = false) := by
      cases ha : truthy env.DB_NAME <;> cases hb : truthy env.DB_USER <;>
        cases hc : truthy env.DB_PASSWORD <;>
          simp [db.init_pool, db._build_dsn_from_env, ha, hb, hc, exceptErr]
    rw [key, truthy_eq_false_iff, truthy_eq_false_iff, truthy_eq_false_iff]
    tauto
  · have hne : n.isEmpty = false := by simp [List.isEmpty_iff, hn2]
    have hue : u.isEmpty = false := by simp [List.isEmpty_iff, hu2]
    have hpe : p.isEmpty = false := by simp [List.isEmpty_iff, hp2]
    simp [db.init_pool, db._build_dsn_from_env, hn, hu, hp, hh, ho,
      truthy, envOr, hne, hue, hpe]

/-- Witness for the amended C8 at a fully populated environment with host
and port left unset. -/
theorem C8_config_failure_iff_required_missing_witness :
    envGood.DB_NAME = some (pyStr "books") ∧ pyStr "books" ≠ [] ∧
    envGood.DB_USER = some (pyStr "admin") ∧ pyStr "admin" ≠ [] ∧
    envGood.DB_PASSWORD = some (pyStr "secret") ∧ pyStr "secret" ≠ [] ∧
    envGood.DB_HOST = none ∧ envGood.DB_PORT = none ∧
    ((exceptErr (db.init_pool envGood none) = true ↔
       (envGood.DB_NAME = none ∨ envGood.DB_NAME = some [] ∨
        envGood.DB_USER = none ∨ envGood.DB_USER = some [] ∨
        envGood.DB_PASSWORD = none ∨ envGood.DB_PASSWORD = some [])) ∧
     db.init_pool envGood none =
       .ok (some { conninfo := mkDsn (quote_plus (pyStr "admin"))
                     (quote_plus (pyStr "secret"))
                     (pyStr "localhost") (pyStr "5432") (pyStr "books"),
                   min_size := 1, max_size := 10 })) :=
  ⟨rfl, by decide, rfl, by decide, rfl, by decide, rfl, rfl,
   C8_config_failure_iff_required_missing envGood envGood
     (pyStr "books") (pyStr "admin") (pyStr "secret")
     rfl (by decide) rfl (by decide) rfl (by decide) rfl rfl⟩
